import Mathlib

/-!
Shallow embedding of the Win32 event loop of KDUtils
(`src/KDFoundation/platform/win32/win32_platform_event_loop.cpp`).

The registry `m_notifiers` (a `std::map<int, NotifierSet>`) is embedded as an
association list with unique keys; `operator[]` (which inserts a
value-initialized record when the key is absent) is `regIndex`.  The
`WSAAsyncSelect` OS call is an environment oracle `subscribeOk : Int → Nat → Bool`
deciding, per `(fd, mask)`, whether the subscription call succeeds; operations
additionally return the trace of `(fd, mask)` subscription calls they issue.
The message queue, the manual-reset wake-up event and
`MsgWaitForMultipleObjects` are embedded as explicit state plus an `arrivals`
parameter listing the messages that become available while the call blocks;
elapsed wall-clock time is abstracted away (an empty `arrivals` list is the
timeout outcome).
-/

/-- Interest kinds, `FileDescriptorNotifier::NotificationType` (Read = 0,
Write = 1, Exception = 2). -/
inductive NotificationType where
  | Read
  | Write
  | Exception
deriving DecidableEq, Repr

/-- A `FileDescriptorNotifier`: its descriptor, its interest kind, and an
identity tag standing for the C++ object identity of the observer. -/
structure Notifier where
  fd : Int
  type : NotificationType
  tag : Nat
deriving DecidableEq, Repr

/-- Modelled from the spec: the Descriptor Interest Record ("NotifierSet",
declared in the header `win32_platform_event_loop.h`, which is not part of the
sources): exactly three slots indexed by interest kind, each empty or holding
one observer. -/
structure NotifierSet where
  readSlot : Option Notifier
  writeSlot : Option Notifier
  excSlot : Option Notifier
deriving DecidableEq, Repr

/-- The value-initialized record produced by `std::map::operator[]` on a
missing key: all three slots empty. -/
def NotifierSet.empty : NotifierSet := ⟨none, none, none⟩

/-- Slot access, `notifierSet.events[static_cast<size_t>(type)]`. -/
def NotifierSet.events (s : NotifierSet) : NotificationType → Option Notifier
  | .Read => s.readSlot
  | .Write => s.writeSlot
  | .Exception => s.excSlot

/-- Slot update, `notifierSet.events[eventTypeIdx] = v`. -/
def NotifierSet.setEvent (s : NotifierSet) : NotificationType → Option Notifier → NotifierSet
  | .Read, v => { s with readSlot := v }
  | .Write, v => { s with writeSlot := v }
  | .Exception, v => { s with excSlot := v }

/-- Modelled from the spec: `NotifierSet::isEmpty` (declared in the header),
true when all three slots are empty — the record "becomes logically absent …
once all three slots are empty". -/
def NotifierSet.isEmpty (s : NotifierSet) : Bool :=
  s.readSlot.isNone && s.writeSlot.isNone && s.excSlot.isNone

/-- The registry `m_notifiers : std::map<int, NotifierSet>`, embedded as an
association list with unique keys (insertion order is irrelevant to the map). -/
abbrev Registry := List (Int × NotifierSet)

/-- Map lookup (`find`). -/
def regFind : Registry → Int → Option NotifierSet
  | [], _ => none
  | p :: r, fd => if p.1 = fd then some p.2 else regFind r fd

/-- Write-through of a record: replace the entry for `fd` if present,
otherwise append a new entry. -/
def regSet : Registry → Int → NotifierSet → Registry
  | [], fd, s => [(fd, s)]
  | p :: r, fd, s => if p.1 = fd then (fd, s) :: r else p :: regSet r fd s

/-- `m_notifiers.erase(fd)`. -/
def regErase : Registry → Int → Registry
  | [], _ => []
  | p :: r, fd => if p.1 = fd then r else p :: regErase r fd

/-- `m_notifiers[fd]`: return the record for `fd`, inserting a
value-initialized (all-empty) record first when none exists. -/
def regIndex (r : Registry) (fd : Int) : NotifierSet × Registry :=
  match regFind r fd with
  | some s => (s, r)
  | none => (NotifierSet.empty, regSet r fd NotifierSet.empty)

/-- Number of descriptor records in the registry. -/
def regSize (r : Registry) : Nat := List.length r

/-- The registry invariant claimed by the spec: no record has all three slots
empty. -/
def noEmptyRecords (r : Registry) : Bool :=
  List.all r (fun p => !p.2.isEmpty)

/-- WinSock `FD_READ`. -/
def FD_READ : Nat := 1
/-- WinSock `FD_WRITE`. -/
def FD_WRITE : Nat := 2
/-- WinSock `FD_OOB`. -/
def FD_OOB : Nat := 4
/-- WinSock `FD_ACCEPT`. -/
def FD_ACCEPT : Nat := 8
/-- WinSock `FD_CONNECT`. -/
def FD_CONNECT : Nat := 16
/-- WinSock `FD_CLOSE`. -/
def FD_CLOSE : Nat := 32

/-- The `typeToWsaEvents` lambda in `registerWithWSAAsyncSelect`: the fixed
interest-kind → low-level-condition mask policy. -/
def typeToWsaEvents : NotificationType → Nat
  | .Read => FD_READ ||| FD_CLOSE ||| FD_ACCEPT
  | .Write => FD_WRITE ||| FD_CONNECT
  | .Exception => FD_OOB

/-- The mask computation loop of `registerWithWSAAsyncSelect`: starting from
zero, OR in `typeToWsaEvents type` for each occupied slot. -/
def eventsToSubscribe (s : NotifierSet) : Nat :=
  List.foldl
    (fun acc t => if (s.events t).isSome then acc ||| typeToWsaEvents t else acc)
    0
    [NotificationType.Read, NotificationType.Write, NotificationType.Exception]

/-- Stated from the spec's words, for comparison with `eventsToSubscribe`:
"the combined subscription mask for a descriptor (the bitwise OR over its
occupied slots)". -/
def specCombinedMask (s : NotifierSet) : Nat :=
  (if (s.events .Read).isSome then typeToWsaEvents .Read else 0) |||
  (if (s.events .Write).isSome then typeToWsaEvents .Write else 0) |||
  (if (s.events .Exception).isSome then typeToWsaEvents .Exception else 0)

/-- A `WSAAsyncSelect` environment: per `(fd, mask)`, whether the call
succeeds (returns 0). -/
def SubscribeEnv := Int → Nat → Bool

/-- `Win32PlatformEventLoop::registerWithWSAAsyncSelect`: one subscription
call for `fd` with the combined mask of `s`; returns success and the
`(fd, mask)` call made. -/
def registerWithWSAAsyncSelect (env : SubscribeEnv) (fd : Int) (s : NotifierSet) :
    Bool × (Int × Nat) :=
  (env fd (eventsToSubscribe s), (fd, eventsToSubscribe s))

/-- Result of a registry-mutating operation: the boolean return value, the
registry afterwards, and the trace of `(fd, mask)` subscription calls. -/
structure RegOpResult where
  ok : Bool
  registry : Registry
  calls : List (Int × Nat)
deriving DecidableEq, Repr

/-- `Win32PlatformEventLoop::registerNotifier`.  `n?` is the notifier
pointer (`none` = null). -/
def registerNotifier (env : SubscribeEnv) (r : Registry) (n? : Option Notifier) :
    RegOpResult :=
  match n? with
  | none => ⟨false, r, []⟩
  | some n =>
    if n.fd < 0 then ⟨false, r, []⟩
    else
      let looked := regIndex r n.fd
      let notifierSet := looked.1
      let r1 := looked.2
      let backup := notifierSet
      if (notifierSet.events n.type).isSome then ⟨false, r1, []⟩
      else
        let ns2 := notifierSet.setEvent n.type (some n)
        let r2 := regSet r1 n.fd ns2
        let sub := registerWithWSAAsyncSelect env n.fd ns2
        if sub.1 then ⟨true, r2, [sub.2]⟩
        else
          let sub2 := registerWithWSAAsyncSelect env n.fd backup
          let r3 := regSet r2 n.fd backup
          let r4 := if backup.isEmpty then regErase r3 n.fd else r3
          ⟨false, r4, [sub.2, sub2.2]⟩

/-- `Win32PlatformEventLoop::unregisterNotifier`.  Note the lookup is
`m_notifiers[fd]` (`operator[]`), which inserts an all-empty record when the
descriptor has none. -/
def unregisterNotifier (env : SubscribeEnv) (r : Registry) (n? : Option Notifier) :
    RegOpResult :=
  match n? with
  | none => ⟨false, r, []⟩
  | some n =>
    let looked := regIndex r n.fd
    let notifierSet := looked.1
    let r1 := looked.2
    if (notifierSet.events n.type).isNone then ⟨false, r1, []⟩
    else
      let ns2 := notifierSet.setEvent n.type none
      let r2 := regSet r1 n.fd ns2
      let sub := registerWithWSAAsyncSelect env n.fd ns2
      let r3 := if ns2.isEmpty then regErase r2 n.fd else r2
      ⟨true, r3, [sub.2]⟩

/-- State read by `Win32PlatformEventLoop::handleSocketMessage`: the notifier
registry and whether a postman (the Event Delivery Sink) is set. -/
structure SockLoopState where
  notifiers : Registry
  postman : Bool
deriving DecidableEq, Repr

/-- The low-level condition → interest-kind routing of the `switch` in
`handleSocketMessage`: the read slot serves `FD_READ`, `FD_CLOSE` and
`FD_ACCEPT`; the write slot serves `FD_WRITE` and `FD_CONNECT`; the exception
slot serves `FD_OOB`; any other code falls through undelivered. -/
def condKind (op : Nat) : Option NotificationType :=
  if op = FD_READ ∨ op = FD_CLOSE ∨ op = FD_ACCEPT then some .Read
  else if op = FD_WRITE ∨ op = FD_CONNECT then some .Write
  else if op = FD_OOB then some .Exception
  else none

/-- The record the dispatch reads for a descriptor: the stored record, or the
all-empty record when none is stored. -/
def lookupOrEmpty (r : Registry) (fd : Int) : NotifierSet :=
  (regFind r fd).getD NotifierSet.empty

/-- `Win32PlatformEventLoop::handleSocketMessage`: `err` is
`WSAGETSELECTERROR(lparam)`, `op` is `WSAGETSELECTEVENT(lparam)`.  Returns the
state afterwards (the lookup is `m_notifiers[sockId]`, which inserts an
all-empty record for an unknown descriptor) and the observers handed to
`m_postman->deliverEvent` with a fresh `NotifierEvent`, in order. -/
def handleSocketMessage (st : SockLoopState) (sockId : Int) (err : Nat) (op : Nat) :
    SockLoopState × List Notifier :=
  if err ≠ 0 then (st, [])
  else if st.postman = false then (st, [])
  else
    let looked := regIndex st.notifiers sockId
    let notifierSet := looked.1
    let st1 : SockLoopState := ⟨looked.2, st.postman⟩
    if op = FD_READ ∨ op = FD_CLOSE ∨ op = FD_ACCEPT then
      (st1, (notifierSet.events .Read).toList)
    else if op = FD_WRITE ∨ op = FD_CONNECT then
      (st1, (notifierSet.events .Write).toList)
    else if op = FD_OOB then
      (st1, (notifierSet.events .Exception).toList)
    else
      (st1, [])

/-- Win32 `WM_QUIT` message code. -/
def WM_QUIT : Nat := 18

/-- State of the wait/wake cycle: the pending native message queue (messages
identified by their message code), whether `m_wakeUpEvent` is a non-null
handle, and whether that manual-reset event is currently signaled. -/
structure Win32LoopState where
  queue : List Nat
  wakeUpEvent : Bool
  signaled : Bool
deriving DecidableEq, Repr

/-- Outcome of one `waitForEvents` call: the state afterwards, the messages
removed from the queue and handled by the dispatch step (`consumed`), those
actually forwarded to `TranslateMessage`/`DispatchMessage` (`dispatched`; a
`WM_QUIT` message is consumed but not forwarded), whether the blocking
`MsgWaitForMultipleObjects` ran and with how many handles, whether
`ResetEvent` cleared the wake-up event, and whether the signal branch was
reached with a null handle (where `assert(m_wakeUpEvent)` fails and
`ResetEvent` is passed the null handle). -/
structure WaitResult where
  state : Win32LoopState
  consumed : List Nat
  dispatched : List Nat
  blockedWait : Bool
  waitHandleCount : Nat
  signalCleared : Bool
  resetOnNullHandle : Bool
deriving DecidableEq, Repr

/-- `Win32PlatformEventLoop::waitForEvents`.  `arrivals` are the messages the
native queue receives while the call blocks; the wall clock is abstracted, so
`arrivals = []` is the timed-out wait.  `MsgWaitForMultipleObjects` reports
the wake-up event as `WAIT_OBJECT_0` and queue activity as
`WAIT_OBJECT_0 + nCount`; the code compares the result against `WAIT_OBJECT_0`,
so with a null handle (`nCount = 0`) queue activity is taken for the signal. -/
def waitForEvents (st : Win32LoopState) (arrivals : List Nat) : WaitResult :=
  match st.queue with
  | m :: rest =>
    { state := ⟨rest, st.wakeUpEvent, st.signaled⟩
      consumed := [m]
      dispatched := if m = WM_QUIT then [] else [m]
      blockedWait := false
      waitHandleCount := 0
      signalCleared := false
      resetOnNullHandle := false }
  | [] =>
    let nCount : Nat := if st.wakeUpEvent then 1 else 0
    if st.wakeUpEvent && st.signaled then
      { state := ⟨arrivals, st.wakeUpEvent, false⟩
        consumed := []
        dispatched := []
        blockedWait := true
        waitHandleCount := nCount
        signalCleared := true
        resetOnNullHandle := false }
    else
      match arrivals with
      | [] =>
        { state := st
          consumed := []
          dispatched := []
          blockedWait := true
          waitHandleCount := nCount
          signalCleared := false
          resetOnNullHandle := false }
      | m :: rest =>
        if st.wakeUpEvent then
          { state := ⟨rest, st.wakeUpEvent, st.signaled⟩
            consumed := [m]
            dispatched := if m = WM_QUIT then [] else [m]
            blockedWait := true
            waitHandleCount := 1
            signalCleared := false
            resetOnNullHandle := false }
        else
          { state := ⟨m :: rest, st.wakeUpEvent, st.signaled⟩
            consumed := []
            dispatched := []
            blockedWait := true
            waitHandleCount := 0
            signalCleared := false
            resetOnNullHandle := true }

/-- `Win32PlatformEventLoop::wakeUp`: set the wake-up event when its handle is
non-null, otherwise do nothing. -/
def wakeUp (st : Win32LoopState) : Win32LoopState :=
  if st.wakeUpEvent then ⟨st.queue, st.wakeUpEvent, true⟩ else st

/-! Basic lemmas about the registry embedding. -/

theorem regFind_regSet_self (r : Registry) (fd : Int) (s : NotifierSet) :
    regFind (regSet r fd s) fd = some s := by
  induction r with
  | nil => simp [regSet, regFind]
  | cons p r ih =>
    by_cases h : p.1 = fd
    · simp [regSet, h, regFind]
    · simp [regSet, h, regFind, ih]

theorem regSet_regSet (r : Registry) (fd : Int) (s1 s2 : NotifierSet) :
    regSet (regSet r fd s1) fd s2 = regSet r fd s2 := by
  induction r with
  | nil => simp [regSet]
  | cons p r ih =>
    by_cases h : p.1 = fd
    · simp [regSet, h]
    · simp [regSet, h, ih]

theorem regSet_find_eq (r : Registry) (fd : Int) (s : NotifierSet)
    (h : regFind r fd = some s) : regSet r fd s = r := by
  induction r with
  | nil => simp [regFind] at h
  | cons p r ih =>
    obtain ⟨a, b⟩ := p
    by_cases hp : a = fd
    · subst hp
      simp [regFind] at h
      simp [regSet, h]
    · simp [regFind, hp] at h
      simp [regSet, hp, ih h]

theorem regErase_regSet_none (r : Registry) (fd : Int) (s : NotifierSet)
    (h : regFind r fd = none) : regErase (regSet r fd s) fd = r := by
  induction r with
  | nil => simp [regSet, regErase]
  | cons p r ih =>
    obtain ⟨a, b⟩ := p
    by_cases hp : a = fd
    · simp [regFind, hp] at h
    · simp [regFind, hp] at h
      simp [regSet, regErase, hp, ih h]

theorem regErase_regSet_some (r : Registry) (fd : Int) (s0 s : NotifierSet)
    (h : regFind r fd = some s0) : regErase (regSet r fd s) fd = regErase r fd := by
  induction r with
  | nil => simp [regFind] at h
  | cons p r ih =>
    obtain ⟨a, b⟩ := p
    by_cases hp : a = fd
    · simp [regSet, regErase, hp]
    · simp [regFind, hp] at h
      simp [regSet, regErase, hp, ih h]

theorem noEmptyRecords_iff (r : Registry) :
    noEmptyRecords r = true ↔ ∀ a b, (a, b) ∈ r → NotifierSet.isEmpty b = false := by
  simp [noEmptyRecords]

theorem mem_regSet (r : Registry) (fd : Int) (s : NotifierSet)
    (q : Int × NotifierSet) (h : q ∈ regSet r fd s) : q = (fd, s) ∨ q ∈ r := by
  induction r with
  | nil => simpa [regSet] using h
  | cons p r ih =>
    by_cases hp : p.1 = fd
    · rcases (by simpa [regSet, hp] using h : q = (fd, s) ∨ q ∈ r) with h1 | h2
      · exact Or.inl h1
      · exact Or.inr (List.mem_cons_of_mem _ h2)
    · rcases (by simpa [regSet, hp] using h : q = p ∨ q ∈ regSet r fd s) with h1 | h2
      · exact Or.inr (by simp [h1])
      · rcases ih h2 with h3 | h4
        · exact Or.inl h3
        · exact Or.inr (List.mem_cons_of_mem _ h4)

theorem mem_regErase (r : Registry) (fd : Int)
    (q : Int × NotifierSet) (h : q ∈ regErase r fd) : q ∈ r := by
  induction r with
  | nil => simp [regErase] at h
  | cons p r ih =>
    by_cases hp : p.1 = fd
    · exact List.mem_cons_of_mem _ (by simpa [regErase, hp] using h)
    · rcases (by simpa [regErase, hp] using h : q = p ∨ q ∈ regErase r fd) with h1 | h2
      · exact by simp [h1]
      · exact List.mem_cons_of_mem _ (ih h2)

theorem regFind_mem (r : Registry) (fd : Int) (s : NotifierSet)
    (h : regFind r fd = some s) : (fd, s) ∈ r := by
  induction r with
  | nil => simp [regFind] at h
  | cons p r ih =>
    by_cases hp : p.1 = fd
    · obtain ⟨a, b⟩ := p
      simp only [regFind, if_pos hp] at h
      cases hp
      cases h
      simp
    · simp only [regFind, if_neg hp] at h
      exact List.mem_cons_of_mem _ (ih h)

theorem noEmptyRecords_regSet (r : Registry) (fd : Int) (s : NotifierSet)
    (hr : noEmptyRecords r = true) (hs : s.isEmpty = false) :
    noEmptyRecords (regSet r fd s) = true := by
  rw [noEmptyRecords_iff] at hr ⊢
  intro a b hmem
  rcases mem_regSet r fd s (a, b) hmem with h1 | h2
  · cases h1
    exact hs
  · exact hr a b h2

theorem noEmptyRecords_regErase (r : Registry) (fd : Int)
    (hr : noEmptyRecords r = true) : noEmptyRecords (regErase r fd) = true := by
  rw [noEmptyRecords_iff] at hr ⊢
  intro a b hmem
  exact hr a b (mem_regErase r fd (a, b) hmem)

theorem noEmptyRecords_find (r : Registry) (fd : Int) (s : NotifierSet)
    (hr : noEmptyRecords r = true) (h : regFind r fd = some s) :
    s.isEmpty = false := by
  rw [noEmptyRecords_iff] at hr
  exact hr fd s (regFind_mem r fd s h)

theorem regIndex_fst (r : Registry) (fd : Int) :
    (regIndex r fd).1 = lookupOrEmpty r fd := by
  unfold regIndex lookupOrEmpty
  cases regFind r fd <;> simp

theorem events_setEvent_self (s : NotifierSet) (t : NotificationType)
    (v : Option Notifier) : (s.setEvent t v).events t = v := by
  cases t <;> simp [NotifierSet.setEvent, NotifierSet.events]

theorem setEvent_some_isEmpty (s : NotifierSet) (t : NotificationType)
    (n : Notifier) : (s.setEvent t (some n)).isEmpty = false := by
  cases t <;> simp [NotifierSet.setEvent, NotifierSet.isEmpty]

theorem empty_events (t : NotificationType) :
    NotifierSet.empty.events t = none := by
  cases t <;> rfl

/-! Lemmas about the register/unregister operations. -/

theorem regIndex_of_find_none (r : Registry) (fd : Int) (h : regFind r fd = none) :
    regIndex r fd = (NotifierSet.empty, regSet r fd NotifierSet.empty) := by
  simp [regIndex, h]

theorem regIndex_of_find_some (r : Registry) (fd : Int) (s : NotifierSet)
    (h : regFind r fd = some s) : regIndex r fd = (s, r) := by
  simp [regIndex, h]

theorem register_fail_state (env : SubscribeEnv) (r : Registry) (n : Notifier)
    (hfd : ¬ n.fd < 0)
    (hfree : (regIndex r n.fd).1.events n.type = none)
    (hfail : env n.fd (eventsToSubscribe ((regIndex r n.fd).1.setEvent n.type (some n))) = false)
    (hinv : ∀ s, regFind r n.fd = some s → s.isEmpty = false) :
    (registerNotifier env r (some n)).ok = false ∧
    (registerNotifier env r (some n)).registry = r := by
  cases hfind : regFind r n.fd with
  | none =>
    have hidx := regIndex_of_find_none r n.fd hfind
    rw [hidx] at hfree hfail
    have hie : NotifierSet.empty.isEmpty = true := rfl
    simp only [registerNotifier, hidx, if_neg hfd, registerWithWSAAsyncSelect,
      hfree, Option.isSome_none, Bool.false_eq_true, if_false, hfail, hie, if_true]
    refine ⟨trivial, ?_⟩
    rw [regSet_regSet, regSet_regSet]
    exact regErase_regSet_none r n.fd NotifierSet.empty hfind
  | some s =>
    have hidx := regIndex_of_find_some r n.fd s hfind
    rw [hidx] at hfree hfail
    have hne := hinv s hfind
    simp only [registerNotifier, hidx, if_neg hfd, registerWithWSAAsyncSelect,
      hfree, Option.isSome_none, Bool.false_eq_true, if_false, hfail, hne]
    refine ⟨trivial, ?_⟩
    rw [regSet_regSet]
    exact regSet_find_eq r n.fd s hfind

theorem unregister_missing_none (env : SubscribeEnv) (r : Registry) (n : Notifier)
    (hfind : regFind r n.fd = none) :
    unregisterNotifier env r (some n) = ⟨false, regSet r n.fd NotifierSet.empty, []⟩ := by
  have hidx := regIndex_of_find_none r n.fd hfind
  have hfree : (NotifierSet.empty.events n.type).isNone = true := by
    rw [empty_events]; rfl
  simp only [unregisterNotifier, hidx, hfree, if_true]

theorem unregister_missing_some (env : SubscribeEnv) (r : Registry) (n : Notifier)
    (s : NotifierSet) (hfind : regFind r n.fd = some s)
    (hfree : s.events n.type = none) :
    unregisterNotifier env r (some n) = ⟨false, r, []⟩ := by
  have hidx := regIndex_of_find_some r n.fd s hfind
  have hfree2 : (s.events n.type).isNone = true := by rw [hfree]; rfl
  simp only [unregisterNotifier, hidx, hfree2, if_true]

theorem unregister_occupied_state (env : SubscribeEnv) (r : Registry) (n : Notifier)
    (s : NotifierSet) (m : Notifier)
    (hfind : regFind r n.fd = some s) (hocc : s.events n.type = some m) :
    (unregisterNotifier env r (some n)).ok = true ∧
    (unregisterNotifier env r (some n)).registry =
      (if (s.setEvent n.type none).isEmpty then regErase r n.fd
       else regSet r n.fd (s.setEvent n.type none)) ∧
    (unregisterNotifier env r (some n)).calls =
      [(n.fd, eventsToSubscribe (s.setEvent n.type none))] := by
  have hidx := regIndex_of_find_some r n.fd s hfind
  have hocc2 : (s.events n.type).isNone = false := by rw [hocc]; rfl
  by_cases he : (s.setEvent n.type none).isEmpty = true
  · simp only [unregisterNotifier, hidx, hocc2, Bool.false_eq_true, if_false,
      registerWithWSAAsyncSelect, he, if_true]
    exact ⟨trivial, by rw [regErase_regSet_some r n.fd s _ hfind], trivial⟩
  · simp only [unregisterNotifier, hidx, hocc2, Bool.false_eq_true, if_false,
      registerWithWSAAsyncSelect, he]
    exact ⟨trivial, trivial, trivial⟩

theorem register_success_state (env : SubscribeEnv) (r : Registry) (n : Notifier)
    (h : (registerNotifier env r (some n)).ok = true) :
    ¬ n.fd < 0 ∧
    ∃ s, regFind (registerNotifier env r (some n)).registry n.fd = some s ∧
      s.events n.type = some n := by
  by_cases hfd : n.fd < 0
  · simp [registerNotifier, hfd] at h
  · refine ⟨hfd, ?_⟩
    cases hocc : ((regIndex r n.fd).1.events n.type).isSome with
    | true => simp [registerNotifier, hfd, hocc] at h
    | false =>
      cases hsub : env n.fd (eventsToSubscribe ((regIndex r n.fd).1.setEvent n.type (some n))) with
      | false =>
        simp [registerNotifier, hfd, hocc, registerWithWSAAsyncSelect, hsub] at h
      | true =>
        refine ⟨(regIndex r n.fd).1.setEvent n.type (some n), ?_,
          events_setEvent_self _ _ _⟩
        simp only [registerNotifier, hfd, if_false, hocc, Bool.false_eq_true,
          registerWithWSAAsyncSelect, hsub, if_true]
        exact regFind_regSet_self _ _ _

theorem register_success_registry (env : SubscribeEnv) (r : Registry) (n : Notifier)
    (hfd : ¬ n.fd < 0)
    (hocc : ((regIndex r n.fd).1.events n.type).isSome = false)
    (hsub : env n.fd (eventsToSubscribe ((regIndex r n.fd).1.setEvent n.type (some n))) = true) :
    (registerNotifier env r (some n)).registry =
      regSet r n.fd ((regIndex r n.fd).1.setEvent n.type (some n)) := by
  cases hfind : regFind r n.fd with
  | none =>
    have hidx := regIndex_of_find_none r n.fd hfind
    rw [hidx] at hocc hsub ⊢
    simp only [registerNotifier, hidx, if_neg hfd, hocc, Bool.false_eq_true, if_false,
      registerWithWSAAsyncSelect, hsub, if_true]
    rw [regSet_regSet]
  | some s =>
    have hidx := regIndex_of_find_some r n.fd s hfind
    rw [hidx] at hocc hsub ⊢
    simp only [registerNotifier, hidx, if_neg hfd, hocc, Bool.false_eq_true, if_false,
      registerWithWSAAsyncSelect, hsub, if_true]

theorem registerNotifier_noEmpty (env : SubscribeEnv) (r : Registry) (n? : Option Notifier)
    (hr : noEmptyRecords r = true) :
    noEmptyRecords (registerNotifier env r n?).registry = true := by
  cases n? with
  | none => simpa [registerNotifier] using hr
  | some n =>
    by_cases hfd : n.fd < 0
    · simpa [registerNotifier, hfd] using hr
    · cases hocc : ((regIndex r n.fd).1.events n.type).isSome with
      | true =>
        cases hfind : regFind r n.fd with
        | none =>
          rw [regIndex_of_find_none r n.fd hfind] at hocc
          rw [empty_events] at hocc
          simp at hocc
        | some s =>
          have hidx := regIndex_of_find_some r n.fd s hfind
          rw [hidx] at hocc
          simpa [registerNotifier, hfd, hidx, hocc] using hr
      | false =>
        cases hsub : env n.fd (eventsToSubscribe ((regIndex r n.fd).1.setEvent n.type (some n))) with
        | true =>
          rw [register_success_registry env r n hfd hocc hsub]
          exact noEmptyRecords_regSet r n.fd _ hr (setEvent_some_isEmpty _ _ _)
        | false =>
          have hfree : (regIndex r n.fd).1.events n.type = none := by
            cases hx : (regIndex r n.fd).1.events n.type with
            | none => rfl
            | some v => rw [hx] at hocc; simp at hocc
          have hroll := register_fail_state env r n hfd hfree hsub
            (fun s hs => noEmptyRecords_find r n.fd s hr hs)
          rw [hroll.2]
          exact hr

/-! Concrete fixtures used by witnesses and counterexamples. -/

/-- A `WSAAsyncSelect` environment in which every subscription call succeeds. -/
def envOk : SubscribeEnv := fun _ _ => true

/-- A `WSAAsyncSelect` environment in which every subscription call fails. -/
def envFail : SubscribeEnv := fun _ _ => false

/-- A concrete observer: descriptor 3, Read interest. -/
def nRead3 : Notifier := ⟨3, .Read, 0⟩

/-- A second concrete observer for descriptor 3 and Read interest. -/
def nRead3b : Notifier := ⟨3, .Read, 1⟩

/-- A concrete observer: descriptor 3, Write interest. -/
def nWrite3 : Notifier := ⟨3, .Write, 2⟩

/-! Claims. -/

/-- C1 (counterexample): on the empty registry, `unregisterNotifier` for a
never-registered observer returns false but the registry gains one record:
`m_notifiers[fd]` inserts an all-empty record that is never erased on this
path, so the number of descriptor records is not the same after the call. -/
theorem C1_counterexample :
    (unregisterNotifier envOk [] (some nRead3)).ok = false ∧
    regSize (unregisterNotifier envOk [] (some nRead3)).registry = 1 ∧
    regSize ([] : Registry) = 0 := by decide

/-- C1 (amended): for every observer whose descriptor has no record or whose
interest-kind slot is empty, `unregisterNotifier` returns false, makes no
subscription call and leaves every record's slots unchanged; but when the
descriptor had no record at all, the `operator[]` lookup inserts a fresh
all-empty record, growing the registry by one record. -/
theorem C1_unregister_not_registered (env : SubscribeEnv) (r : Registry) (n : Notifier)
    (hfree : (regIndex r n.fd).1.events n.type = none) :
    (unregisterNotifier env r (some n)).ok = false ∧
    (unregisterNotifier env r (some n)).registry =
      (if regFind r n.fd = none then regSet r n.fd NotifierSet.empty else r) ∧
    (unregisterNotifier env r (some n)).calls = [] := by
  cases hfind : regFind r n.fd with
  | none =>
    rw [unregister_missing_none env r n hfind]
    simp [hfind]
  | some s =>
    have hfree2 : s.events n.type = none := by
      rw [regIndex_of_find_some r n.fd s hfind] at hfree
      exact hfree
    rw [unregister_missing_some env r n s hfind hfree2]
    simp [hfind]

/-- Witness for C1: the amended theorem applied to descriptor 3 on the empty
registry. -/
theorem C1_witness :
    (regIndex ([] : Registry) nRead3.fd).1.events nRead3.type = none ∧
    (unregisterNotifier envOk [] (some nRead3)).ok = false :=
  ⟨by decide, (C1_unregister_not_registered envOk [] nRead3 (by decide)).1⟩

/-- C2 (counterexample): starting from the empty registry (which satisfies the
no-empty-record invariant), both `unregisterNotifier` on an unknown descriptor
and `handleSocketMessage` for an unknown descriptor (zero error, postman set)
return leaving an all-empty record in the registry. -/
theorem C2_counterexample :
    noEmptyRecords ([] : Registry) = true ∧
    noEmptyRecords (unregisterNotifier envOk [] (some nRead3)).registry = false ∧
    noEmptyRecords (handleSocketMessage ⟨[], true⟩ 3 0 FD_READ).1.notifiers = false := by
  decide

/-- C2 (amended): `registerNotifier` always preserves the no-empty-record
invariant (a record it creates is either filled or rolled back and erased);
`unregisterNotifier` and readiness dispatch preserve it whenever a record for
the descriptor already exists, but on a descriptor without a record their
`m_notifiers[...]` lookup inserts an all-empty record and violates it. -/
theorem C2_no_empty_records (env : SubscribeEnv) (r : Registry) (n? : Option Notifier)
    (n2 : Notifier) (sockId : Int) (err op : Nat) (pm : Bool)
    (hr : noEmptyRecords r = true) :
    noEmptyRecords (registerNotifier env r n?).registry = true ∧
    (regFind r n2.fd ≠ none →
      noEmptyRecords (unregisterNotifier env r (some n2)).registry = true) ∧
    (regFind r sockId ≠ none →
      noEmptyRecords (handleSocketMessage ⟨r, pm⟩ sockId err op).1.notifiers = true) := by
  refine ⟨registerNotifier_noEmpty env r n? hr, ?_, ?_⟩
  · intro hne
    cases hfind : regFind r n2.fd with
    | none => exact absurd hfind hne
    | some s =>
      cases hocc : s.events n2.type with
      | none =>
        rw [unregister_missing_some env r n2 s hfind hocc]
        exact hr
      | some m =>
        have h := unregister_occupied_state env r n2 s m hfind hocc
        rw [h.2.1]
        by_cases he : (s.setEvent n2.type none).isEmpty = true
        · rw [if_pos he]
          exact noEmptyRecords_regErase r n2.fd hr
        · rw [if_neg he]
          have he2 : (s.setEvent n2.type none).isEmpty = false := by
            cases hx : (s.setEvent n2.type none).isEmpty with
            | true => exact absurd hx he
            | false => rfl
          exact noEmptyRecords_regSet r n2.fd _ hr he2
  · intro hne
    cases hfind : regFind r sockId with
    | none => exact absurd hfind hne
    | some s =>
      have hidx := regIndex_of_find_some r sockId s hfind
      have hreg : (handleSocketMessage ⟨r, pm⟩ sockId err op).1.notifiers = r := by
        simp only [handleSocketMessage, hidx]
        split_ifs <;> rfl
      rw [hreg]
      exact hr

/-- Witness for C2: the amended theorem applied to a registry holding one
occupied record for descriptor 3. -/
theorem C2_witness :
    noEmptyRecords [((3 : Int), NotifierSet.mk (some nRead3) none none)] = true ∧
    noEmptyRecords (unregisterNotifier envOk
      [((3 : Int), NotifierSet.mk (some nRead3) none none)] (some nRead3)).registry = true :=
  ⟨by decide,
   (C2_no_empty_records envOk [((3 : Int), NotifierSet.mk (some nRead3) none none)]
      none nRead3 0 0 0 true (by decide)).2.1 (by decide)⟩

/-- C3 (confirmed): if the `WSAAsyncSelect` subscription call made during
`registerNotifier` for a valid observer fails, the call returns false and, as
long as the registry held no all-empty record for that descriptor (the
spec invariant), the registry afterwards is exactly its pre-call state: the
snapshot is restored and a record that is left all-empty is erased. -/
theorem C3_register_rollback (env : SubscribeEnv) (r : Registry) (n : Notifier)
    (hfd : ¬ n.fd < 0)
    (hfree : (regIndex r n.fd).1.events n.type = none)
    (hfail : env n.fd (eventsToSubscribe ((regIndex r n.fd).1.setEvent n.type (some n))) = false)
    (hinv : ∀ s, regFind r n.fd = some s → s.isEmpty = false) :
    (registerNotifier env r (some n)).ok = false ∧
    (registerNotifier env r (some n)).registry = r :=
  register_fail_state env r n hfd hfree hfail hinv

/-- Witness for C3: a forced subscription failure while registering the sole
interest on descriptor 3 leaves the empty registry empty. -/
theorem C3_witness :
    ¬ (nRead3.fd < 0) ∧
    (registerNotifier envFail [] (some nRead3)).ok = false ∧
    (registerNotifier envFail [] (some nRead3)).registry = [] :=
  ⟨by decide,
   (C3_register_rollback envFail [] nRead3 (by decide) (by decide) (by decide)
      (fun s hs => by simp [regFind] at hs)).1,
   (C3_register_rollback envFail [] nRead3 (by decide) (by decide) (by decide)
      (fun s hs => by simp [regFind] at hs)).2⟩

theorem handleSocketMessage_deliveries (st : SockLoopState) (sockId : Int) (op : Nat)
    (hpm : st.postman = true) :
    (handleSocketMessage st sockId 0 op).2 =
      ((condKind op).bind fun k => (lookupOrEmpty st.notifiers sockId).events k).toList := by
  have h1 : (regIndex st.notifiers sockId).1 = lookupOrEmpty st.notifiers sockId :=
    regIndex_fst _ _
  simp only [handleSocketMessage, hpm, condKind]
  split_ifs <;> simp_all [h1]

/-- C8 (confirmed): readiness dispatch is a total function that never
propagates an error: with a nonzero error code or no postman the delivery list
is empty; otherwise it is exactly the occupant of the slot the condition maps
to (empty slot or unknown condition: nothing), so at most one occurrence is
handed to the sink per message. -/
theorem C8_dispatch_policy (st : SockLoopState) (sockId : Int) (err op : Nat) :
    (handleSocketMessage st sockId err op).2 =
      (if err ≠ 0 ∨ st.postman = false then []
       else ((condKind op).bind fun k =>
          (lookupOrEmpty st.notifiers sockId).events k).toList) ∧
    (handleSocketMessage st sockId err op).2.length ≤ 1 := by
  have heq : (handleSocketMessage st sockId err op).2 =
      (if err ≠ 0 ∨ st.postman = false then []
       else ((condKind op).bind fun k =>
          (lookupOrEmpty st.notifiers sockId).events k).toList) := by
    by_cases he : err ≠ 0
    · simp [handleSocketMessage, he]
    · by_cases hp : st.postman = false
      · simp [handleSocketMessage, he, hp]
      · have hpm : st.postman = true := by
          cases hx : st.postman with
          | true => rfl
          | false => exact absurd hx hp
        have he0 : err = 0 := by omega
        subst he0
        rw [handleSocketMessage_deliveries st sockId op hpm]
        simp [he, hp]
  refine ⟨heq, ?_⟩
  rw [heq]
  split_ifs
  · simp
  · cases ((condKind op).bind fun k =>
      (lookupOrEmpty st.notifiers sockId).events k) <;> simp

/-- C5 (confirmed): the fixed interest-kind → low-level-condition policy.
`Read` subscribes and serves `FD_READ`, `FD_CLOSE` and `FD_ACCEPT`; `Write`
serves `FD_WRITE` and `FD_CONNECT`; `Exception` serves `FD_OOB` only.  The
subscription mask is the bitwise OR of the per-kind masks over occupied slots
(an all-empty record gives mask 0, the full unsubscribe), and dispatch routes
a condition to exactly the slot of its mapped kind. -/
theorem C5_mapping_policy :
    (typeToWsaEvents .Read = FD_READ ||| FD_CLOSE ||| FD_ACCEPT) ∧
    (typeToWsaEvents .Write = FD_WRITE ||| FD_CONNECT) ∧
    (typeToWsaEvents .Exception = FD_OOB) ∧
    (∀ s : NotifierSet, eventsToSubscribe s = specCombinedMask s) ∧
    eventsToSubscribe NotifierSet.empty = 0 ∧
    (∀ op : Nat, condKind op = some .Read ↔ (op = FD_READ ∨ op = FD_CLOSE ∨ op = FD_ACCEPT)) ∧
    (∀ op : Nat, condKind op = some .Write ↔ (op = FD_WRITE ∨ op = FD_CONNECT)) ∧
    (∀ op : Nat, condKind op = some .Exception ↔ op = FD_OOB) ∧
    (∀ (st : SockLoopState) (sockId : Int) (op : Nat), st.postman = true →
      (handleSocketMessage st sockId 0 op).2 =
        ((condKind op).bind fun k => (lookupOrEmpty st.notifiers sockId).events k).toList) := by
  refine ⟨rfl, rfl, rfl, ?_, by decide, ?_, ?_, ?_, handleSocketMessage_deliveries⟩
  · intro s
    obtain ⟨r?, w?, e?⟩ := s
    cases r? <;> cases w? <;> cases e? <;>
      simp [eventsToSubscribe, specCombinedMask, NotifierSet.events, Nat.zero_or]
  · intro op
    simp only [condKind, FD_READ, FD_WRITE, FD_OOB, FD_ACCEPT, FD_CONNECT, FD_CLOSE]
    split_ifs <;> simp_all
  · intro op
    simp only [condKind, FD_READ, FD_WRITE, FD_OOB, FD_ACCEPT, FD_CONNECT, FD_CLOSE]
    split_ifs <;> simp_all
    omega
  · intro op
    simp only [condKind, FD_READ, FD_WRITE, FD_OOB, FD_ACCEPT, FD_CONNECT, FD_CLOSE]
    split_ifs <;> simp_all
    all_goals omega

/-- Witness for C5: routing a connection-established condition on descriptor 3
delivers from the Write slot. -/
theorem C5_witness :
    (handleSocketMessage ⟨[((3 : Int), NotifierSet.mk none (some nWrite3) none)], true⟩
        3 0 FD_CONNECT).2 =
      ((condKind FD_CONNECT).bind fun k =>
        (lookupOrEmpty [((3 : Int), NotifierSet.mk none (some nWrite3) none)] 3).events k).toList :=
  C5_mapping_policy.2.2.2.2.2.2.2.2
    ⟨[((3 : Int), NotifierSet.mk none (some nWrite3) none)], true⟩ 3 FD_CONNECT rfl

/-- C6 (confirmed): after a successful registration for a descriptor and
kind, a second `registerNotifier` with the same descriptor and kind (any
observer, any subscription environment) returns false and leaves the registry
untouched, and a readiness condition mapping to that kind is still delivered
to the first observer. -/
theorem C6_duplicate_register (env env2 : SubscribeEnv) (r : Registry) (n n2 : Notifier)
    (hok : (registerNotifier env r (some n)).ok = true)
    (hfd : n2.fd = n.fd) (hty : n2.type = n.type) :
    (registerNotifier env2 (registerNotifier env r (some n)).registry (some n2)).ok = false ∧
    (registerNotifier env2 (registerNotifier env r (some n)).registry (some n2)).registry =
      (registerNotifier env r (some n)).registry ∧
    (∀ op : Nat, condKind op = some n.type →
      (handleSocketMessage ⟨(registerNotifier env r (some n)).registry, true⟩ n.fd 0 op).2 =
        [n]) := by
  obtain ⟨hfdn, s, hfind, hslot⟩ := register_success_state env r n hok
  have hfd2 : ¬ n2.fd < 0 := by rw [hfd]; exact hfdn
  have hocc : (s.events n2.type).isSome = true := by rw [hty, hslot]; rfl
  have hidx2 : regIndex (registerNotifier env r (some n)).registry n2.fd =
      (s, (registerNotifier env r (some n)).registry) := by
    rw [hfd]
    exact regIndex_of_find_some _ n.fd s hfind
  generalize hgen : (registerNotifier env r (some n)).registry = r1 at hfind hidx2 ⊢
  refine ⟨?_, ?_, ?_⟩
  · simp [registerNotifier, hfd2, hidx2, hocc]
  · simp [registerNotifier, hfd2, hidx2, hocc]
  · intro op hop
    rw [handleSocketMessage_deliveries _ _ _ rfl, hop]
    simp [lookupOrEmpty, hfind, hslot]

/-- Witness for C6: registering descriptor 3 for Read twice; the duplicate
fails and `FD_READ` still goes to the first observer. -/
theorem C6_witness :
    (registerNotifier envOk [] (some nRead3)).ok = true ∧
    (registerNotifier envOk (registerNotifier envOk [] (some nRead3)).registry
      (some nRead3b)).ok = false ∧
    (handleSocketMessage ⟨(registerNotifier envOk [] (some nRead3)).registry, true⟩
      nRead3.fd 0 FD_READ).2 = [nRead3] :=
  ⟨by decide,
   (C6_duplicate_register envOk envOk [] nRead3 nRead3b (by decide) (by decide) (by decide)).1,
   (C6_duplicate_register envOk envOk [] nRead3 nRead3b (by decide) (by decide)
      (by decide)).2.2 FD_READ (by decide)⟩

/-- C7 (confirmed): for every occupied slot, `unregisterNotifier` clears the
slot, issues exactly one re-subscription call with the recomputed mask of the
cleared record, erases the record when it became empty, and returns true for
every subscription environment — in particular also when the re-subscribe
call fails. -/
theorem C7_unregister_best_effort (env : SubscribeEnv) (r : Registry) (n : Notifier)
    (s : NotifierSet) (m : Notifier)
    (hfind : regFind r n.fd = some s) (hocc : s.events n.type = some m) :
    (unregisterNotifier env r (some n)).ok = true ∧
    (unregisterNotifier env r (some n)).registry =
      (if (s.setEvent n.type none).isEmpty then regErase r n.fd
       else regSet r n.fd (s.setEvent n.type none)) ∧
    (unregisterNotifier env r (some n)).calls =
      [(n.fd, eventsToSubscribe (s.setEvent n.type none))] :=
  unregister_occupied_state env r n s m hfind hocc

/-- Witness for C7: unregistering the sole Read interest on descriptor 3 in
an environment where every subscription call fails still returns true. -/
theorem C7_witness :
    regFind [((3 : Int), NotifierSet.mk (some nRead3) none none)] nRead3.fd =
      some (NotifierSet.mk (some nRead3) none none) ∧
    (unregisterNotifier envFail [((3 : Int), NotifierSet.mk (some nRead3) none none)]
      (some nRead3)).ok = true :=
  ⟨by decide,
   (C7_unregister_best_effort envFail [((3 : Int), NotifierSet.mk (some nRead3) none none)]
      nRead3 (NotifierSet.mk (some nRead3) none none) nRead3 (by decide) (by decide)).1⟩

/-- C4 (confirmed): with the wake-up event handle present, `waitForEvents`
consumes at most one native message per call and follows the algorithm: a
pending message is consumed by the dispatch step without blocking; with an
empty queue the combined wait runs; if it ends because the signal was set the
signal is cleared and nothing is consumed; otherwise (queue activity or
timeout) the queue is re-polled and its head, if any, is consumed.  Consumed
messages are forwarded to the native dispatch call except a quit message,
which the dispatch step handles as a shutdown request instead. -/
theorem C4_wait_algorithm (st : Win32LoopState) (arrivals : List Nat)
    (hw : st.wakeUpEvent = true) :
    (waitForEvents st arrivals).consumed.length ≤ 1 ∧
    (waitForEvents st arrivals).dispatched =
      (waitForEvents st arrivals).consumed.filter (fun m => m ≠ WM_QUIT) ∧
    (∀ m rest, st.queue = m :: rest →
      (waitForEvents st arrivals).blockedWait = false ∧
      (waitForEvents st arrivals).consumed = [m]) ∧
    (st.queue = [] → (waitForEvents st arrivals).blockedWait = true) ∧
    (st.queue = [] → st.signaled = true →
      (waitForEvents st arrivals).signalCleared = true ∧
      (waitForEvents st arrivals).consumed = [] ∧
      (waitForEvents st arrivals).state.signaled = false) ∧
    (st.queue = [] → st.signaled = false →
      (waitForEvents st arrivals).signalCleared = false ∧
      (waitForEvents st arrivals).consumed = arrivals.take 1) := by
  obtain ⟨q, w, sig⟩ := st
  simp only [Win32LoopState.wakeUpEvent] at hw
  subst hw
  cases q with
  | cons m rest =>
    refine ⟨?_, ?_, ?_, ?_, ?_, ?_⟩ <;>
      by_cases hq : m = WM_QUIT <;>
        simp [waitForEvents, hq]
  | nil =>
    cases sig with
    | true =>
      refine ⟨?_, ?_, ?_, ?_, ?_, ?_⟩ <;> simp [waitForEvents]
    | false =>
      cases arrivals with
      | nil =>
        refine ⟨?_, ?_, ?_, ?_, ?_, ?_⟩ <;> simp [waitForEvents]
      | cons a as =>
        refine ⟨?_, ?_, ?_, ?_, ?_, ?_⟩ <;>
          by_cases hq : a = WM_QUIT <;>
            simp [waitForEvents, hq]

/-- Witness for C4: a queued message 7 is consumed without blocking. -/
theorem C4_witness :
    (⟨[7], true, false⟩ : Win32LoopState).wakeUpEvent = true ∧
    (waitForEvents ⟨[7], true, false⟩ []).consumed = [7] ∧
    (waitForEvents ⟨[7], true, false⟩ []).blockedWait = false :=
  ⟨rfl,
   ((C4_wait_algorithm ⟨[7], true, false⟩ [] rfl).2.2.1 7 [] rfl).2,
   ((C4_wait_algorithm ⟨[7], true, false⟩ [] rfl).2.2.1 7 [] rfl).1⟩

/-- C10 (code bug): with a null wake-up handle the blocking wait indeed passes
zero handles and `wakeUp` is a no-op, but when a message arrives during the
blocking wait, `MsgWaitForMultipleObjects` reports queue activity as
`WAIT_OBJECT_0 + nCount = WAIT_OBJECT_0`, so the code takes the signal branch:
`assert(m_wakeUpEvent)` fails on the null handle, `ResetEvent` is called on
it, and the pending message is not consumed by this call. -/
theorem C10_null_handle_eval :
    (waitForEvents ⟨[], false, false⟩ [7]).waitHandleCount = 0 ∧
    (waitForEvents ⟨[], false, false⟩ [7]).blockedWait = true ∧
    (waitForEvents ⟨[], false, false⟩ [7]).resetOnNullHandle = true ∧
    (waitForEvents ⟨[], false, false⟩ [7]).consumed = [] ∧
    (waitForEvents ⟨[], false, false⟩ [7]).dispatched = [] ∧
    wakeUp ⟨[], false, false⟩ = ⟨[], false, false⟩ ∧
    (waitForEvents ⟨[], false, false⟩ []).resetOnNullHandle = false := by
  decide
